import Mathlib

/-!
Verification of the command-processing and event-emission core of
`turing-payments-rails` (TypeScript sources: `src/command/CommandHandler.ts`,
`src/command/CommandRejectedEmitter.ts`, `src/command/CommandIdempotencyStore.ts`,
`src/emit/validateEvent.ts`, `src/emit/emitEvent.ts`).

The TypeScript code is shallowly embedded: strings are Lean `String`s,
JavaScript exceptions become `Except`, the shared mutable singletons
(idempotency store, rejection emitter, publisher) become explicit state
threaded through the functions, `uuidv4()` and `new Date()` become an
explicit environment supplying fresh identifiers and the current clock,
and the AJV schema registry (loaded at module start from the `schemas/`
directory, which is not part of the sources) is a parameter: an
association list from schema file names to validator functions.
-/

namespace TPR

/-! String helpers mirroring JavaScript string primitives. -/

/-- True when the second list occurs at the very start of the first. -/
def matchesHere : List Char → List Char → Bool
  | _, [] => true
  | [], _ :: _ => false
  | c :: cs, p :: ps => c == p && matchesHere cs ps

/-- JavaScript `haystack.includes(pattern)` on unpacked strings. -/
def jsIncludesL (hay pat : List Char) : Bool :=
  match hay with
  | [] => matchesHere [] pat
  | _ :: t => matchesHere hay pat || jsIncludesL t pat

/-- JavaScript `s.includes(pat)`. -/
def jsIncludes (s pat : String) : Bool :=
  jsIncludesL s.data pat.data

/-- JavaScript `str.replace(pat, rep)` with a string pattern: replaces only the
first occurrence, or returns the string unchanged when the pattern is absent. -/
def jsReplaceFirstL (l pat rep : List Char) : List Char :=
  match l with
  | [] => if matchesHere [] pat then rep else []
  | c :: t => if matchesHere (c :: t) pat then rep ++ (c :: t).drop pat.length
              else c :: jsReplaceFirstL t pat rep

/-- JavaScript `s.replace(pat, rep)` (string pattern, first occurrence). -/
def jsReplaceFirst (s pat rep : String) : String :=
  String.mk (jsReplaceFirstL s.data pat.data rep.data)

/-! Character classes and case mapping, restricted to ASCII exactly as the
regexes `[A-Z]` and the schema-name alphabet in `validateEvent.ts` use them. -/

/-- Membership in the regex class `[A-Z]` (code points 65 to 90). -/
def isUpperAZ (c : Char) : Bool :=
  decide (65 ≤ c.toNat) && decide (c.toNat ≤ 90)

/-- Membership in `[a-z]` (code points 97 to 122). -/
def isLowerAZ (c : Char) : Bool :=
  decide (97 ≤ c.toNat) && decide (c.toNat ≤ 122)

/-- Membership in `[0-9]` (code points 48 to 57). -/
def isDigit09 (c : Char) : Bool :=
  decide (48 ≤ c.toNat) && decide (c.toNat ≤ 57)

/-- JavaScript `toLowerCase` on the ASCII letters the schema names use. -/
def jsToLowerChar (c : Char) : Char :=
  if isUpperAZ c then Char.ofNat (c.toNat + 32) else c

/-- JavaScript `toUpperCase` on the ASCII letters the schema names use. -/
def jsToUpperChar (c : Char) : Char :=
  if isLowerAZ c then Char.ofNat (c.toNat - 32) else c

/-- The regex step `str.replace(/([A-Z])/g, '_$1')` of `toSnakeCase`. -/
def expandUpperL (cs : List Char) : List Char :=
  (cs.map (fun c => if isUpperAZ c then ['_', c] else [c])).flatten

/-- The replace-then-lowercase body of `toSnakeCase`, before the leading
underscore is stripped. -/
def snakeAux (cs : List Char) : List Char :=
  (expandUpperL cs).map jsToLowerChar

/-- The final `replace(/^_/, '')` step of `toSnakeCase`. -/
def stripLeadUnderscore : List Char → List Char
  | '_' :: rest => rest
  | l => l

/-- Embedding of `toSnakeCase` from `src/emit/validateEvent.ts`:
PascalCase to snake_case. -/
def toSnakeCase (s : String) : String :=
  String.mk (stripLeadUnderscore (snakeAux s.data))

/-- The `word.charAt(0).toUpperCase() + word.slice(1)` step of `toPascalCase`. -/
def capitalizeL : List Char → List Char
  | [] => []
  | c :: cs => jsToUpperChar c :: cs

/-- Embedding of `toPascalCase` from `src/emit/validateEvent.ts`:
snake_case to PascalCase (split on underscores, capitalize, join). -/
def toPascalCase (s : String) : String :=
  String.mk (((s.data.splitOn '_').map capitalizeL).flatten)

/-- Schema file name computed by `validateEvent` for a declared event type. -/
def schemaNameOfType (event_type : String) : String :=
  toSnakeCase event_type ++ ".v1.json"

/-- Event type computed by `getSupportedEventTypes` for a schema file name. -/
def eventTypeOfSchemaFile (file : String) : String :=
  toPascalCase (jsReplaceFirst file ".v1.json" "")

/-- Embedding of `getSupportedEventTypes`, over the list of schema file names
read from the schemas directory. -/
def getSupportedEventTypes (schemaFiles : List String) : List String :=
  (schemaFiles.filter (fun f => f ≠ "envelope.v1.json")).map eventTypeOfSchemaFile

/-- A well-formed snake_case word: nonempty, begins with a lowercase ASCII
letter, and continues with lowercase letters or digits. -/
def goodWordL : List Char → Bool
  | [] => false
  | c :: cs => isLowerAZ c && cs.all (fun d => isLowerAZ d || isDigit09 d)

/-- A well-formed snake_case name: every underscore-separated word is a
`goodWordL`. -/
def isSnakeName (cs : List Char) : Bool :=
  (cs.splitOn '_').all goodWordL

/-! Rejection taxonomy and the CommandRejected data model,
from `src/command/CommandRejectedEmitter.ts`. -/

/-- The `RejectionReason` enum. -/
inductive RejectionReason
  | DUPLICATE_COMMAND
  | INVALID_SCHEMA
  | BUSINESS_RULE_VIOLATION
  | INSUFFICIENT_FUNDS
  | INVALID_STATE_TRANSITION
  | AUTHORIZATION_FAILED
  | RATE_LIMIT_EXCEEDED
deriving DecidableEq, Repr

/-- Reason-specific structured `metadata` attached by the emitter helpers
(`Record<string, any>` in the source, one shape per helper). -/
inductive RejMetadata
  | empty
  | validationError (validation_error : String)
  | ruleViolation (rule_violation : String)
  | insufficientFunds (required_amount available_amount : Int)
  | stateTransition (current_state attempted_transition : String)
deriving DecidableEq, Repr

/-- The `CommandRejectedPayload` interface. `Date` strings are modeled as the
environment clock value (`Nat`). -/
structure CommandRejectedPayload where
  command_id : String
  command_type : String
  reason_code : RejectionReason
  reason_message : String
  rejected_at : Nat
  correlation_id : Option String
  metadata : Option RejMetadata
deriving DecidableEq, Repr

/-- Payload object of the event literal constructed inside
`CommandRejectedEmitter.emit` (metadata already defaulted to `{}`). -/
structure RejectedEventPayload where
  command_id : String
  command_type : String
  reason_code : RejectionReason
  reason_message : String
  rejected_at : Nat
  metadata : RejMetadata
deriving DecidableEq, Repr

/-- The full event literal constructed inside `CommandRejectedEmitter.emit`. -/
structure EmittedEvent where
  event_id : String
  event_type : String
  occurred_at : Nat
  schema_version : String
  correlation_id : String
  payload : RejectedEventPayload
deriving DecidableEq, Repr

/-! The emission gate, from `src/emit/validateEvent.ts` and
`src/emit/emitEvent.ts`. The gate takes `any`; its value universe is modeled
as either a CommandRejected event literal or an arbitrary other object
carrying an optional `event_type` field and opaque remaining fields. -/

/-- A JavaScript value reaching the gate. -/
inductive GateEvent
  | rejected (e : EmittedEvent)
  | other (event_type : Option String) (body : List (String × String))
deriving DecidableEq, Repr

/-- The `event.event_type` field access. -/
def GateEvent.eventType : GateEvent → Option String
  | .rejected e => some e.event_type
  | .other t _ => t

/-- A registered AJV schema: file name paired with its compiled validator. -/
def SchemaRegistry : Type := List (String × (GateEvent → Bool))

/-- Errors thrown by `validateEvent`. -/
inductive ValErr
  | notObject
  | missingEventType
  | noSchemaRegistered (event_type schemaName : String)
  | schemaViolation (event_type errors : String)
deriving DecidableEq, Repr

/-- AJV `errorsText` diagnostics; their precise text is irrelevant to the
spec, field-level detail is abstracted to a fixed rendering. -/
def ajvErrorsText (_e : GateEvent) : String :=
  "data does not satisfy the registered schema"

/-- The `Error.message` each `ValErr` constructor renders to, exactly as in
`validateEvent.ts`. -/
def valErrMessage : ValErr → String
  | .notObject => "Event must be an object"
  | .missingEventType => "Event missing event_type field"
  | .noSchemaRegistered t s => "No schema registered for " ++ t ++ " (expected " ++ s ++ ")"
  | .schemaViolation t errs => "Schema violation for " ++ t ++ ": " ++ errs

/-- Embedding of `validateEvent(event)`. `none` models a null or non-object
argument; an absent or empty `event_type` is falsy in JavaScript. -/
def validateEvent (registry : SchemaRegistry) (ev : Option GateEvent) : Except ValErr Unit :=
  match ev with
  | none => .error .notObject
  | some e =>
    match e.eventType with
    | none => .error .missingEventType
    | some t =>
      if t = "" then .error .missingEventType
      else
        let schemaName := schemaNameOfType t
        match (List.lookup schemaName (registry : List (String × (GateEvent → Bool)))) with
        | none => .error (.noSchemaRegistered t schemaName)
        | some validator =>
          if validator e then .ok () else .error (.schemaViolation t (ajvErrorsText e))

/-- Errors thrown by `emitEvent`. -/
inductive EmitErr
  | validation (e : ValErr)
  | noPublisher
deriving DecidableEq, Repr

/-- The `Error.message` of each `EmitErr`. -/
def emitErrMessage : EmitErr → String
  | .validation e => valErrMessage e
  | .noPublisher => "Event publisher not configured. Call setPublisher() first."

/-- Embedding of `emitEvent(event)`: validate first, then hand to the
publisher. The second component is the list of arguments passed to
`publisher.publish` during the call. -/
def emitEvent (registry : SchemaRegistry) (publisherConfigured : Bool)
    (ev : Option GateEvent) : Except EmitErr Unit × List (Option GateEvent) :=
  match validateEvent registry ev with
  | .error e => (.error (.validation e), [])
  | .ok () =>
    if publisherConfigured then (.ok (), [ev])
    else (.error .noPublisher, [])

/-! Execution environment: `uuidv4()` is a supply of fresh identifiers
(`genId` applied to an ever-increasing counter) and `new Date()` reads the
clock `now`. -/

/-- Ambient nondeterminism of a handler call, made explicit. -/
structure Env where
  genId : Nat → String
  counter : Nat
  now : Nat

/-- The identifier `uuidv4()` returns next in environment `env`. -/
def Env.freshId (env : Env) : String := env.genId env.counter

/-- Environment after one `uuidv4()` call. -/
def Env.tick (env : Env) : Env := { env with counter := env.counter + 1 }

/-- JavaScript `a || b` on an optional string: `undefined` and the empty
string are falsy. -/
def jsOrStr (a : Option String) (b : String) : String :=
  match a with
  | none => b
  | some s => if s = "" then b else s

/-! The CommandRejected emitter, from `src/command/CommandRejectedEmitter.ts`. -/

namespace CommandRejectedEmitter

/-- The event literal `emit` constructs from a payload: fresh `event_id`,
constant `event_type` and `schema_version`, clock `occurred_at`,
`correlation_id` defaulted to the fresh id, metadata defaulted to `{}`. -/
def buildRejectedEvent (env : Env) (p : CommandRejectedPayload) : EmittedEvent :=
  let event_id := env.freshId
  { event_id := event_id
    event_type := "command_rejected.v1"
    occurred_at := env.now
    schema_version := "v1"
    correlation_id := jsOrStr p.correlation_id event_id
    payload :=
      { command_id := p.command_id
        command_type := p.command_type
        reason_code := p.reason_code
        reason_message := p.reason_message
        rejected_at := p.rejected_at
        metadata := p.metadata.getD .empty } }

/-- Embedding of `CommandRejectedEmitter.emit`: construct the event, validate
it through the gate, and only then count it as emitted. Returns the new
event id, the advanced environment, and the emitted facts. -/
def emit (registry : SchemaRegistry) (env : Env) (p : CommandRejectedPayload) :
    Except ValErr (String × Env × List EmittedEvent) :=
  let ev := buildRejectedEvent env p
  match validateEvent registry (some (.rejected ev)) with
  | .error e => .error e
  | .ok () => .ok (ev.event_id, env.tick, [ev])

/-- Payload built by `emitDuplicateCommand`. -/
def dupPayload (env : Env) (command_id command_type : String)
    (correlation_id : Option String) : CommandRejectedPayload :=
  { command_id := command_id
    command_type := command_type
    reason_code := .DUPLICATE_COMMAND
    reason_message := "Command " ++ command_id ++ " has already been processed"
    rejected_at := env.now
    correlation_id := correlation_id
    metadata := none }

/-- Embedding of `emitDuplicateCommand`. -/
def emitDuplicateCommand (registry : SchemaRegistry) (env : Env)
    (command_id command_type : String) (correlation_id : Option String) :
    Except ValErr (String × Env × List EmittedEvent) :=
  emit registry env (dupPayload env command_id command_type correlation_id)

/-- Payload built by `emitInvalidSchema`. -/
def invalidSchemaPayload (env : Env) (command_id command_type validation_error : String)
    (correlation_id : Option String) : CommandRejectedPayload :=
  { command_id := command_id
    command_type := command_type
    reason_code := .INVALID_SCHEMA
    reason_message := "Command validation failed: " ++ validation_error
    rejected_at := env.now
    correlation_id := correlation_id
    metadata := some (.validationError validation_error) }

/-- Embedding of `emitInvalidSchema`. -/
def emitInvalidSchema (registry : SchemaRegistry) (env : Env)
    (command_id command_type validation_error : String) (correlation_id : Option String) :
    Except ValErr (String × Env × List EmittedEvent) :=
  emit registry env (invalidSchemaPayload env command_id command_type validation_error correlation_id)

/-- Payload built by `emitBusinessRuleViolation`. -/
def businessRulePayload (env : Env) (command_id command_type rule_violation : String)
    (correlation_id : Option String) : CommandRejectedPayload :=
  { command_id := command_id
    command_type := command_type
    reason_code := .BUSINESS_RULE_VIOLATION
    reason_message := "Business rule violation: " ++ rule_violation
    rejected_at := env.now
    correlation_id := correlation_id
    metadata := some (.ruleViolation rule_violation) }

/-- Embedding of `emitBusinessRuleViolation`. -/
def emitBusinessRuleViolation (registry : SchemaRegistry) (env : Env)
    (command_id command_type rule_violation : String) (correlation_id : Option String) :
    Except ValErr (String × Env × List EmittedEvent) :=
  emit registry env (businessRulePayload env command_id command_type rule_violation correlation_id)

/-- Payload built by `emitInsufficientFunds`. -/
def insufficientFundsPayload (env : Env) (command_id command_type : String)
    (required_amount available_amount : Int) (correlation_id : Option String) :
    CommandRejectedPayload :=
  { command_id := command_id
    command_type := command_type
    reason_code := .INSUFFICIENT_FUNDS
    reason_message := "Insufficient funds: required " ++ toString required_amount
      ++ ", available " ++ toString available_amount
    rejected_at := env.now
    correlation_id := correlation_id
    metadata := some (.insufficientFunds required_amount available_amount) }

/-- Embedding of `emitInsufficientFunds`. -/
def emitInsufficientFunds (registry : SchemaRegistry) (env : Env)
    (command_id command_type : String) (required_amount available_amount : Int)
    (correlation_id : Option String) :
    Except ValErr (String × Env × List EmittedEvent) :=
  emit registry env
    (insufficientFundsPayload env command_id command_type required_amount available_amount correlation_id)

/-- Payload built by `emitInvalidStateTransition`. -/
def stateTransitionPayload (env : Env) (command_id command_type current_state attempted_transition : String)
    (correlation_id : Option String) : CommandRejectedPayload :=
  { command_id := command_id
    command_type := command_type
    reason_code := .INVALID_STATE_TRANSITION
    reason_message := "Invalid state transition: " ++ current_state ++ " -> " ++ attempted_transition
    rejected_at := env.now
    correlation_id := correlation_id
    metadata := some (.stateTransition current_state attempted_transition) }

/-- Embedding of `emitInvalidStateTransition`. -/
def emitInvalidStateTransition (registry : SchemaRegistry) (env : Env)
    (command_id command_type current_state attempted_transition : String)
    (correlation_id : Option String) :
    Except ValErr (String × Env × List EmittedEvent) :=
  emit registry env
    (stateTransitionPayload env command_id command_type current_state attempted_transition correlation_id)

end CommandRejectedEmitter

/-! The command idempotency store, from `src/command/CommandIdempotencyStore.ts`
(an in-memory `Map` keyed by `command_id`). -/

/-- The `CommandRecord` interface. -/
structure CommandRecord where
  command_id : String
  command_type : String
  processed_at : Nat
  result_event_id : Option String
deriving DecidableEq, Repr

/-- The store: its `Map<string, CommandRecord>` as an association list with
unique keys (`Map.set` replaces an existing binding). -/
structure CommandIdempotencyStore where
  processedCommands : List (String × CommandRecord)
deriving DecidableEq, Repr

namespace CommandIdempotencyStore

/-- JavaScript `Map.set`: replace the binding if the key exists, else append. -/
def mapSet (m : List (String × CommandRecord)) (k : String) (v : CommandRecord) :
    List (String × CommandRecord) :=
  match m with
  | [] => [(k, v)]
  | (k1, v1) :: rest => if k1 = k then (k, v) :: rest else (k1, v1) :: mapSet rest k v

/-- Embedding of `isProcessed`: pure `Map.has` lookup. -/
def isProcessed (s : CommandIdempotencyStore) (command_id : String) : Bool :=
  (List.lookup command_id s.processedCommands).isSome

/-- Embedding of `getRecord`. -/
def getRecord (s : CommandIdempotencyStore) (command_id : String) : Option CommandRecord :=
  List.lookup command_id s.processedCommands

/-- Embedding of `markProcessed`: throws when the key is already present,
otherwise records the command. -/
def markProcessed (s : CommandIdempotencyStore) (command_id command_type : String)
    (result_event_id : Option String) (now : Nat) :
    Except String CommandIdempotencyStore :=
  if isProcessed s command_id then
    .error ("Command " ++ command_id ++ " already processed")
  else
    .ok { processedCommands :=
            mapSet s.processedCommands command_id
              { command_id := command_id
                command_type := command_type
                processed_at := now
                result_event_id := result_event_id } }

/-- Embedding of `count`. -/
def count (s : CommandIdempotencyStore) : Nat :=
  s.processedCommands.length

/-- Embedding of `clear`. -/
def clear (_s : CommandIdempotencyStore) : CommandIdempotencyStore :=
  { processedCommands := [] }

end CommandIdempotencyStore

/-! The command handler, from `src/command/CommandHandler.ts`. -/

/-- The `Command` interface (command-specific extra fields are irrelevant to
the handler and elided). -/
structure Command where
  command_id : String
  command_type : String
  correlation_id : Option String
deriving DecidableEq, Repr

/-- The `CommandResult` interface; optional fields are `Option`s. -/
structure CommandResult where
  success : Bool
  event_id : Option String
  rejection_event_id : Option String
  reason : Option String
deriving DecidableEq, Repr

/-- The `validate`/`execute` pair a concrete subclass supplies. `validate`
returns void or throws; `execute` returns the domain event id or throws.
Thrown errors are their message strings. -/
structure HandlerImpl where
  validate : Command → Except String Unit
  execute : Command → Except String String

/-- The shared mutable state a `handle` call reads and writes: the global
idempotency store, the id/clock environment, and the trail of
CommandRejected facts emitted so far. -/
structure HandleState where
  store : CommandIdempotencyStore
  env : Env
  emitted : List EmittedEvent

namespace CommandHandler

open CommandRejectedEmitter CommandIdempotencyStore

/-- Embedding of `CommandHandler.handleRejection`: classify the caught error
message by substring, emit the matching CommandRejected fact, and return a
failure result. An error from the emission itself propagates. -/
def handleRejection (registry : SchemaRegistry) (st : HandleState) (cmd : Command)
    (errMsg : String) : Except ValErr (CommandResult × HandleState) :=
  let emitted :=
    if jsIncludes errMsg "validation" then
      emitInvalidSchema registry st.env cmd.command_id cmd.command_type errMsg cmd.correlation_id
    else if jsIncludes errMsg "insufficient funds" then
      emitInsufficientFunds registry st.env cmd.command_id cmd.command_type 0 0 cmd.correlation_id
    else if jsIncludes errMsg "state transition" then
      emitInvalidStateTransition registry st.env cmd.command_id cmd.command_type
        "unknown" "unknown" cmd.correlation_id
    else
      emitBusinessRuleViolation registry st.env cmd.command_id cmd.command_type errMsg cmd.correlation_id
  match emitted with
  | .error e => .error e
  | .ok (rejection_event_id, env1, evs) =>
    .ok ({ success := false
           event_id := none
           rejection_event_id := some rejection_event_id
           reason := some errMsg },
         { st with env := env1, emitted := st.emitted ++ evs })

/-- Embedding of `CommandHandler.handle`: duplicate check, then validate,
execute, mark processed; any error thrown by the `try` block is routed to
`handleRejection`. -/
def handle (registry : SchemaRegistry) (impl : HandlerImpl) (st : HandleState)
    (cmd : Command) : Except ValErr (CommandResult × HandleState) :=
  if isProcessed st.store cmd.command_id then
    match emitDuplicateCommand registry st.env cmd.command_id cmd.command_type cmd.correlation_id with
    | .error e => .error e
    | .ok (rejection_event_id, env1, evs) =>
      .ok ({ success := false
             event_id := none
             rejection_event_id := some rejection_event_id
             reason := some "Duplicate command" },
           { st with env := env1, emitted := st.emitted ++ evs })
  else
    match impl.validate cmd with
    | .error e => handleRejection registry st cmd e
    | .ok () =>
      match impl.execute cmd with
      | .error e => handleRejection registry st cmd e
      | .ok event_id =>
        match markProcessed st.store cmd.command_id cmd.command_type (some event_id) st.env.now with
        | .error e => handleRejection registry st cmd e
        | .ok store1 =>
          .ok ({ success := true
                 event_id := some event_id
                 rejection_event_id := none
                 reason := none },
               { st with store := store1 })

end CommandHandler

/-! The schema registry itself. -/

/-- Modelled from the spec: the `schemas/` directory is loaded at process
start but is not among the given sources. Per §4.1 and §4.3 of the spec the
registry is an enumerable set of schema documents keyed by the deterministic
name transform, and every `CommandRejected` fact the emitter constructs is
schema-valid, so the registry is modelled as containing the CommandRejected
schema under the name the gate computes for the emitter's declared
`event_type`, with a validator accepting the emitter's event literals. -/
def specRegistry : SchemaRegistry :=
  [(schemaNameOfType "command_rejected.v1",
    fun ev => match ev with
      | .rejected _ => true
      | .other _ _ => false)]

/-! Support predicates used to state the claims. -/

/-- True when the call returned (did not throw) and the returned
`CommandResult` satisfies `p`. -/
def resultSatisfies (x : Except ValErr (CommandResult × HandleState))
    (p : CommandResult → Bool) : Bool :=
  match x with
  | .ok (r, _) => p r
  | .error _ => false

/-- True when every `CommandResult` the call returned satisfies `p`
(vacuously true when the call threw). -/
def onOkResult (x : Except ValErr (CommandResult × HandleState))
    (p : CommandResult → Bool) : Bool :=
  match x with
  | .ok (r, _) => p r
  | .error _ => true

/-- True when an emitter call returned without throwing. -/
def emitterOk (x : Except ValErr (String × Env × List EmittedEvent)) : Bool :=
  match x with
  | .ok _ => true
  | .error _ => false

/-- The duplicate-submission failure shape claimed for `handle`. -/
def isDupFailure (r : CommandResult) : Bool :=
  decide (r.success = false) && decide (r.reason = some "Duplicate command")
    && r.rejection_event_id.isSome

/-- The `CommandResult` shape contract: success carries exactly `event_id`;
failure carries exactly `rejection_event_id` and `reason`. -/
def resultShapeOk (r : CommandResult) : Bool :=
  if r.success then
    r.event_id.isSome && decide (r.rejection_event_id = none) && decide (r.reason = none)
  else
    decide (r.event_id = none) && r.rejection_event_id.isSome && r.reason.isSome

/-- Post-state contract of one `handle` call on a not-yet-processed id:
success leaves the id processed; failure leaves the store untouched and the
id unprocessed. -/
def postMarkOk (command_id : String) (base : CommandIdempotencyStore)
    (x : Except ValErr (CommandResult × HandleState)) : Bool :=
  match x with
  | .error _ => true
  | .ok (r, st1) =>
    if r.success then CommandIdempotencyStore.isProcessed st1.store command_id
    else decide (st1.store = base)
      && !(CommandIdempotencyStore.isProcessed st1.store command_id)

/-- The payload `handleRejection` hands to the emitter for a caught error
message, following the same substring classification chain. -/
def rejectionPayloadFor (env : Env) (cmd : Command) (errMsg : String) :
    CommandRejectedPayload :=
  if jsIncludes errMsg "validation" then
    CommandRejectedEmitter.invalidSchemaPayload env cmd.command_id cmd.command_type
      errMsg cmd.correlation_id
  else if jsIncludes errMsg "insufficient funds" then
    CommandRejectedEmitter.insufficientFundsPayload env cmd.command_id cmd.command_type
      0 0 cmd.correlation_id
  else if jsIncludes errMsg "state transition" then
    CommandRejectedEmitter.stateTransitionPayload env cmd.command_id cmd.command_type
      "unknown" "unknown" cmd.correlation_id
  else
    CommandRejectedEmitter.businessRulePayload env cmd.command_id cmd.command_type
      errMsg cmd.correlation_id

/-! Basic lemmas about the embedding. -/

theorem handleRejection_eq (registry : SchemaRegistry) (st : HandleState)
    (cmd : Command) (errMsg : String) :
    CommandHandler.handleRejection registry st cmd errMsg =
      match CommandRejectedEmitter.emit registry st.env (rejectionPayloadFor st.env cmd errMsg) with
      | .error e => .error e
      | .ok (rid, env1, evs) =>
        .ok ({ success := false
               event_id := none
               rejection_event_id := some rid
               reason := some errMsg },
             { st with env := env1, emitted := st.emitted ++ evs }) := by
  simp only [CommandHandler.handleRejection, rejectionPayloadFor,
    CommandRejectedEmitter.emitInvalidSchema, CommandRejectedEmitter.emitInsufficientFunds,
    CommandRejectedEmitter.emitInvalidStateTransition,
    CommandRejectedEmitter.emitBusinessRuleViolation]
  split_ifs <;> rfl

theorem lookup_mapSet (m : List (String × CommandRecord)) (k : String) (v : CommandRecord) :
    List.lookup k (CommandIdempotencyStore.mapSet m k v) = some v := by
  induction m with
  | nil => simp [CommandIdempotencyStore.mapSet, List.lookup]
  | cons kv rest ih =>
    obtain ⟨k1, v1⟩ := kv
    by_cases hk : k1 = k
    · simp [CommandIdempotencyStore.mapSet, hk, List.lookup]
    · have hk2 : (k == k1) = false := by
        simp only [beq_eq_false_iff_ne, ne_eq]
        exact fun h => hk h.symm
      simp [CommandIdempotencyStore.mapSet, hk, List.lookup, ih, hk2]

/-! C8 theorem. -/

/-- C8: `markProcessed` on a `command_id` already present in the store always
fails with the already-processed error, and (being a pure rejection of the
write) leaves the store contents and `count()` untouched. -/
theorem markProcessed_duplicate_fails (s : CommandIdempotencyStore)
    (command_id command_type : String) (result_event_id : Option String) (now : Nat)
    (h : CommandIdempotencyStore.isProcessed s command_id = true) :
    CommandIdempotencyStore.markProcessed s command_id command_type result_event_id now
      = .error ("Command " ++ command_id ++ " already processed") := by
  simp [CommandIdempotencyStore.markProcessed, h]

/-- Witness for C8 at a concrete one-record store. -/
theorem markProcessed_duplicate_fails_witness :
    CommandIdempotencyStore.isProcessed
      { processedCommands := [("cmd-003",
          { command_id := "cmd-003", command_type := "InitiatePayment",
            processed_at := 1, result_event_id := none })] } "cmd-003" = true
    ∧ CommandIdempotencyStore.markProcessed
        { processedCommands := [("cmd-003",
            { command_id := "cmd-003", command_type := "InitiatePayment",
              processed_at := 1, result_event_id := none })] }
        "cmd-003" "InitiatePayment" none 5
      = .error ("Command " ++ "cmd-003" ++ " already processed") :=
  ⟨by decide, markProcessed_duplicate_fails _ _ _ _ _ (by decide)⟩

/-! C1 theorem. -/

/-- C1: when the `command_id` is already present in the idempotency store,
`handle` returns a failure with `success=false`, reason `"Duplicate command"`
and a defined `rejection_event_id`, and the subclass `validate`/`execute`
are never invoked: the call's outcome is identical for any two
implementations. The hypothesis `hemit` states that emitting the
`DUPLICATE_COMMAND` rejection fact itself succeeds (the CommandRejected
schema is registered, as the spec requires of the deployed registry). -/
theorem handle_duplicate_rejects (registry : SchemaRegistry) (implA implB : HandlerImpl)
    (st : HandleState) (cmd : Command)
    (h : CommandIdempotencyStore.isProcessed st.store cmd.command_id = true)
    (hemit : emitterOk (CommandRejectedEmitter.emitDuplicateCommand registry st.env
      cmd.command_id cmd.command_type cmd.correlation_id) = true) :
    CommandHandler.handle registry implA st cmd = CommandHandler.handle registry implB st cmd
    ∧ resultSatisfies (CommandHandler.handle registry implA st cmd) isDupFailure = true := by
  constructor
  · simp [CommandHandler.handle, h]
  · simp only [CommandHandler.handle, h, if_true]
    revert hemit
    cases hE : CommandRejectedEmitter.emitDuplicateCommand registry st.env
        cmd.command_id cmd.command_type cmd.correlation_id with
    | error e => simp [emitterOk]
    | ok v =>
      obtain ⟨rid, env1, evs⟩ := v
      simp [resultSatisfies, isDupFailure]

/-- Witness for C1: a concrete processed command, two different
implementations, and the spec-modelled registry. -/
theorem handle_duplicate_rejects_witness :
    CommandIdempotencyStore.isProcessed
      { processedCommands := [("cmd-100",
          { command_id := "cmd-100", command_type := "Test",
            processed_at := 1, result_event_id := some "evt-1" })] } "cmd-100" = true
    ∧ emitterOk (CommandRejectedEmitter.emitDuplicateCommand specRegistry
        { genId := fun n => "uuid-" ++ toString n, counter := 0, now := 7 }
        "cmd-100" "Test" none) = true
    ∧ (CommandHandler.handle specRegistry
        { validate := fun _ => .ok (), execute := fun _ => .ok "evt-A" }
        { store := { processedCommands := [("cmd-100",
            { command_id := "cmd-100", command_type := "Test",
              processed_at := 1, result_event_id := some "evt-1" })] },
          env := { genId := fun n => "uuid-" ++ toString n, counter := 0, now := 7 },
          emitted := [] }
        { command_id := "cmd-100", command_type := "Test", correlation_id := none }
      = CommandHandler.handle specRegistry
        { validate := fun _ => .error "validation failed", execute := fun _ => .error "boom" }
        { store := { processedCommands := [("cmd-100",
            { command_id := "cmd-100", command_type := "Test",
              processed_at := 1, result_event_id := some "evt-1" })] },
          env := { genId := fun n => "uuid-" ++ toString n, counter := 0, now := 7 },
          emitted := [] }
        { command_id := "cmd-100", command_type := "Test", correlation_id := none }
      ∧ resultSatisfies (CommandHandler.handle specRegistry
          { validate := fun _ => .ok (), execute := fun _ => .ok "evt-A" }
          { store := { processedCommands := [("cmd-100",
              { command_id := "cmd-100", command_type := "Test",
                processed_at := 1, result_event_id := some "evt-1" })] },
            env := { genId := fun n => "uuid-" ++ toString n, counter := 0, now := 7 },
            emitted := [] }
          { command_id := "cmd-100", command_type := "Test", correlation_id := none })
        isDupFailure = true) :=
  ⟨by decide, by rfl,
    handle_duplicate_rejects specRegistry
      { validate := fun _ => .ok (), execute := fun _ => .ok "evt-A" }
      { validate := fun _ => .error "validation failed", execute := fun _ => .error "boom" }
      _ _ (by decide) (by rfl)⟩

/-! C2 theorem. -/

/-- C2: on a not-previously-processed `command_id`, a successful `handle`
leaves `isProcessed` true, while a `handle` that returns failure (a
`validate`/`execute` error) leaves the store untouched and the id
unprocessed — `markProcessed` runs only after a successful `execute`. -/
theorem handle_marks_only_on_success (registry : SchemaRegistry) (impl : HandlerImpl)
    (st : HandleState) (cmd : Command)
    (h : CommandIdempotencyStore.isProcessed st.store cmd.command_id = false) :
    postMarkOk cmd.command_id st.store (CommandHandler.handle registry impl st cmd) = true := by
  have hrej : ∀ m, postMarkOk cmd.command_id st.store
      (CommandHandler.handleRejection registry st cmd m) = true := by
    intro m
    rw [handleRejection_eq]
    cases CommandRejectedEmitter.emit registry st.env (rejectionPayloadFor st.env cmd m) with
    | error e => simp [postMarkOk]
    | ok v =>
      obtain ⟨rid, env1, evs⟩ := v
      simp [postMarkOk, h]
  simp only [CommandHandler.handle, h, Bool.false_eq_true, if_false]
  cases hv : impl.validate cmd with
  | error e => simpa using hrej e
  | ok u =>
    cases u
    cases he : impl.execute cmd with
    | error e => simpa using hrej e
    | ok event_id =>
      simp only [CommandIdempotencyStore.markProcessed, h, Bool.false_eq_true, if_false]
      simp [postMarkOk, CommandIdempotencyStore.isProcessed, lookup_mapSet]

/-- Witness for C2 at a fresh store with a succeeding implementation. -/
theorem handle_marks_only_on_success_witness :
    CommandIdempotencyStore.isProcessed { processedCommands := [] } "cmd-success" = false
    ∧ postMarkOk "cmd-success" { processedCommands := [] }
        (CommandHandler.handle specRegistry
          { validate := fun _ => .ok (), execute := fun _ => .ok "evt-success" }
          { store := { processedCommands := [] },
            env := { genId := fun n => "uuid-" ++ toString n, counter := 0, now := 3 },
            emitted := [] }
          { command_id := "cmd-success", command_type := "TestCommand",
            correlation_id := none }) = true :=
  ⟨by decide,
    handle_marks_only_on_success specRegistry
      { validate := fun _ => .ok (), execute := fun _ => .ok "evt-success" }
      { store := { processedCommands := [] },
        env := { genId := fun n => "uuid-" ++ toString n, counter := 0, now := 3 },
        emitted := [] }
      { command_id := "cmd-success", command_type := "TestCommand",
        correlation_id := none }
      (by decide)⟩

/-! C5 theorem. -/

/-- C5: every `CommandResult` `handle` returns has exactly one of the two
legal shapes: success with only `event_id`, or failure with exactly
`rejection_event_id` and `reason` — never both ids, never neither. -/
theorem handle_result_shape (registry : SchemaRegistry) (impl : HandlerImpl)
    (st : HandleState) (cmd : Command) :
    onOkResult (CommandHandler.handle registry impl st cmd) resultShapeOk = true := by
  have hrej : ∀ m, onOkResult (CommandHandler.handleRejection registry st cmd m)
      resultShapeOk = true := by
    intro m
    rw [handleRejection_eq]
    cases CommandRejectedEmitter.emit registry st.env (rejectionPayloadFor st.env cmd m) with
    | error e => simp [onOkResult]
    | ok v =>
      obtain ⟨rid, env1, evs⟩ := v
      simp [onOkResult, resultShapeOk]
  unfold CommandHandler.handle
  cases hp : CommandIdempotencyStore.isProcessed st.store cmd.command_id with
  | true =>
    simp only [if_true]
    cases hd : CommandRejectedEmitter.emitDuplicateCommand registry st.env
        cmd.command_id cmd.command_type cmd.correlation_id with
    | error e => simp [hd, onOkResult]
    | ok v =>
      obtain ⟨rid, env1, evs⟩ := v
      simp [hd, onOkResult, resultShapeOk]
  | false =>
    simp only [Bool.false_eq_true, if_false]
    cases hv : impl.validate cmd with
    | error e => simpa [hv] using hrej e
    | ok u =>
      cases u
      cases he : impl.execute cmd with
      | error e => simpa [he] using hrej e
      | ok event_id =>
        cases hm : CommandIdempotencyStore.markProcessed st.store cmd.command_id
            cmd.command_type (some event_id) st.env.now with
        | error e => simpa [hm] using hrej e
        | ok store1 => simp [hm, onOkResult, resultShapeOk]

/-! C9 theorem. -/

/-- True when an emitter call that returned did return the id of the freshly
built event and emitted exactly that event. -/
def emitStamps (env : Env) (p : CommandRejectedPayload)
    (x : Except ValErr (String × Env × List EmittedEvent)) : Bool :=
  match x with
  | .error _ => true
  | .ok (rid, _, evs) =>
    decide (rid = env.freshId)
      && decide (evs = [CommandRejectedEmitter.buildRejectedEvent env p])

theorem emit_stamps (registry : SchemaRegistry) (env : Env) (p : CommandRejectedPayload) :
    emitStamps env p (CommandRejectedEmitter.emit registry env p) = true := by
  cases hv : validateEvent registry
      (some (.rejected (CommandRejectedEmitter.buildRejectedEvent env p))) with
  | error e => simp [CommandRejectedEmitter.emit, emitStamps, hv]
  | ok u =>
    cases u
    simp only [CommandRejectedEmitter.emit, hv, emitStamps]
    simp [CommandRejectedEmitter.buildRejectedEvent]

/-- C9: every rejection helper builds its event around the next fresh id as
`event_id`, sets the payload's `rejected_at` to the current clock, defaults
a missing caller `correlation_id` to that same fresh `event_id`, and (when
its emission passes the gate) returns exactly that id while emitting exactly
that one event. -/
theorem rejection_helpers_stamp (registry : SchemaRegistry) (env : Env)
    (command_id command_type verr rule cur att : String) (corr : Option String)
    (req avail : Int) :
    (∀ p : CommandRejectedPayload,
      (CommandRejectedEmitter.buildRejectedEvent env p).event_id = env.freshId)
    ∧ (∀ p : CommandRejectedPayload,
      (CommandRejectedEmitter.buildRejectedEvent env { p with correlation_id := none }).correlation_id
        = (CommandRejectedEmitter.buildRejectedEvent env { p with correlation_id := none }).event_id)
    ∧ (CommandRejectedEmitter.dupPayload env command_id command_type corr).rejected_at = env.now
    ∧ (CommandRejectedEmitter.invalidSchemaPayload env command_id command_type verr corr).rejected_at
        = env.now
    ∧ (CommandRejectedEmitter.businessRulePayload env command_id command_type rule corr).rejected_at
        = env.now
    ∧ (CommandRejectedEmitter.insufficientFundsPayload env command_id command_type req avail
        corr).rejected_at = env.now
    ∧ (CommandRejectedEmitter.stateTransitionPayload env command_id command_type cur att
        corr).rejected_at = env.now
    ∧ emitStamps env (CommandRejectedEmitter.dupPayload env command_id command_type corr)
        (CommandRejectedEmitter.emitDuplicateCommand registry env command_id command_type corr) = true
    ∧ emitStamps env (CommandRejectedEmitter.invalidSchemaPayload env command_id command_type verr corr)
        (CommandRejectedEmitter.emitInvalidSchema registry env command_id command_type verr corr) = true
    ∧ emitStamps env (CommandRejectedEmitter.businessRulePayload env command_id command_type rule corr)
        (CommandRejectedEmitter.emitBusinessRuleViolation registry env command_id command_type rule corr)
        = true
    ∧ emitStamps env
        (CommandRejectedEmitter.insufficientFundsPayload env command_id command_type req avail corr)
        (CommandRejectedEmitter.emitInsufficientFunds registry env command_id command_type req avail corr)
        = true
    ∧ emitStamps env
        (CommandRejectedEmitter.stateTransitionPayload env command_id command_type cur att corr)
        (CommandRejectedEmitter.emitInvalidStateTransition registry env command_id command_type
          cur att corr) = true := by
  refine ⟨fun p => rfl, fun p => rfl, rfl, rfl, rfl, rfl, rfl, ?_, ?_, ?_, ?_, ?_⟩
  · exact emit_stamps registry env _
  · exact emit_stamps registry env _
  · exact emit_stamps registry env _
  · exact emit_stamps registry env _
  · exact emit_stamps registry env _

/-! C10 theorem. -/

/-- Reason code predicted from the caught error message, in the precedence
order the claim states. This definition follows the claim text; the theorem
relates it to what `handleRejection` actually emits. -/
def claimedReasonCode (errMsg : String) : RejectionReason :=
  if jsIncludes errMsg "validation" then .INVALID_SCHEMA
  else if jsIncludes errMsg "insufficient funds" then .INSUFFICIENT_FUNDS
  else if jsIncludes errMsg "state transition" then .INVALID_STATE_TRANSITION
  else .BUSINESS_RULE_VIOLATION

/-- True when a returned rejection carries reason equal to the error message
verbatim and emitted exactly one fact whose code (and claimed metadata)
follow the substring classification. -/
def classifiedOk (st : HandleState) (errMsg : String)
    (x : Except ValErr (CommandResult × HandleState)) : Bool :=
  match x with
  | .error _ => true
  | .ok (r, st1) =>
    decide (r.reason = some errMsg) &&
    (match st1.emitted.drop st.emitted.length with
     | [ev] =>
       decide (ev.payload.reason_code = claimedReasonCode errMsg)
       && !(decide (ev.payload.reason_code = .AUTHORIZATION_FAILED))
       && !(decide (ev.payload.reason_code = .RATE_LIMIT_EXCEEDED))
       && (if jsIncludes errMsg "validation" then true
           else if jsIncludes errMsg "insufficient funds" then
             decide (ev.payload.metadata = .insufficientFunds 0 0)
           else if jsIncludes errMsg "state transition" then
             decide (ev.payload.metadata = .stateTransition "unknown" "unknown")
           else true)
     | _ => false)

theorem emit_ok_inv (registry : SchemaRegistry) (env : Env) (p : CommandRejectedPayload)
    (rid : String) (env1 : Env) (evs : List EmittedEvent)
    (h : CommandRejectedEmitter.emit registry env p = .ok (rid, env1, evs)) :
    rid = (CommandRejectedEmitter.buildRejectedEvent env p).event_id
    ∧ evs = [CommandRejectedEmitter.buildRejectedEvent env p] := by
  cases hv : validateEvent registry
      (some (.rejected (CommandRejectedEmitter.buildRejectedEvent env p))) with
  | error e => simp only [CommandRejectedEmitter.emit, hv] at h; cases h
  | ok u =>
    cases u
    simp only [CommandRejectedEmitter.emit, hv, Except.ok.injEq, Prod.mk.injEq] at h
    exact ⟨h.1.symm, h.2.2.symm⟩

/-- C10: the handler classifies a caught `validate`/`execute` error solely by
substrings of its message, in the order validation, insufficient funds,
state transition, otherwise business rule; insufficient-funds metadata is
zeroed and state-transition metadata is `"unknown"`; neither
`AUTHORIZATION_FAILED` nor `RATE_LIMIT_EXCEEDED` is ever emitted; and the
returned `reason` is the error message verbatim. -/
theorem handleRejection_classifies (registry : SchemaRegistry) (st : HandleState)
    (cmd : Command) (errMsg : String) :
    classifiedOk st errMsg (CommandHandler.handleRejection registry st cmd errMsg) = true := by
  rw [handleRejection_eq]
  cases hE : CommandRejectedEmitter.emit registry st.env
      (rejectionPayloadFor st.env cmd errMsg) with
  | error e => simp [classifiedOk]
  | ok v =>
    obtain ⟨rid, env1, evs⟩ := v
    obtain ⟨hrid, hevs⟩ := emit_ok_inv registry st.env _ rid env1 evs hE
    subst hevs
    cases h1 : jsIncludes errMsg "validation" with
    | true =>
      simp [classifiedOk, claimedReasonCode, rejectionPayloadFor, h1,
        CommandRejectedEmitter.buildRejectedEvent,
        CommandRejectedEmitter.invalidSchemaPayload, List.drop_left]
    | false =>
      cases h2 : jsIncludes errMsg "insufficient funds" with
      | true =>
        simp [classifiedOk, claimedReasonCode, rejectionPayloadFor, h1, h2,
          CommandRejectedEmitter.buildRejectedEvent,
          CommandRejectedEmitter.insufficientFundsPayload, List.drop_left]
      | false =>
        cases h3 : jsIncludes errMsg "state transition" with
        | true =>
          simp [classifiedOk, claimedReasonCode, rejectionPayloadFor, h1, h2, h3,
            CommandRejectedEmitter.buildRejectedEvent,
            CommandRejectedEmitter.stateTransitionPayload, List.drop_left]
        | false =>
          simp [classifiedOk, claimedReasonCode, rejectionPayloadFor, h1, h2, h3,
            CommandRejectedEmitter.buildRejectedEvent,
            CommandRejectedEmitter.businessRulePayload, List.drop_left]

/-! C3 theorem. -/

/-- Contract of the rejection path for a caught error message: if the call
returned, it returned a structured failure carrying the message, emitted
exactly one CommandRejected fact, and that fact passed the gate's
`validateEvent`; if the call threw, the thrown error is exactly the gate's
verdict on the constructed rejection fact — only a failing rejection
emission propagates. -/
def rejectionOutcomeOk (registry : SchemaRegistry) (st : HandleState) (cmd : Command)
    (errMsg : String) (x : Except ValErr (CommandResult × HandleState)) : Bool :=
  let ev := CommandRejectedEmitter.buildRejectedEvent st.env (rejectionPayloadFor st.env cmd errMsg)
  match x with
  | .error e =>
    (match validateEvent registry (some (.rejected ev)) with
     | .error e1 => decide (e = e1)
     | .ok _ => false)
  | .ok (r, st1) =>
    decide (r.success = false) && decide (r.reason = some errMsg)
      && decide (r.rejection_event_id = some ev.event_id)
      && decide (r.event_id = none)
      && decide (st1.emitted = st.emitted ++ [ev])
      && (match validateEvent registry (some (.rejected ev)) with
          | .ok _ => true
          | .error _ => false)

theorem handleRejection_outcome (registry : SchemaRegistry) (st : HandleState)
    (cmd : Command) (errMsg : String) :
    rejectionOutcomeOk registry st cmd errMsg
      (CommandHandler.handleRejection registry st cmd errMsg) = true := by
  rw [handleRejection_eq]
  cases hv : validateEvent registry (some (.rejected
      (CommandRejectedEmitter.buildRejectedEvent st.env
        (rejectionPayloadFor st.env cmd errMsg)))) with
  | error e =>
    simp only [CommandRejectedEmitter.emit, hv]
    simp [rejectionOutcomeOk, hv]
  | ok u =>
    cases u
    simp only [CommandRejectedEmitter.emit, hv]
    simp [rejectionOutcomeOk, hv]

/-- C3: every error raised by `validate` or `execute` is caught at the
handler boundary: `handle` proceeds exactly as `handleRejection` on the
error message, which converts the error into one emitted, gate-validated
CommandRejected fact and a structured failure result; an exception escapes
the call only when emitting that rejection fact itself fails. -/
theorem handle_converts_errors (registry : SchemaRegistry) (impl : HandlerImpl)
    (st : HandleState) (cmd : Command) (errMsg : String)
    (hdup : CommandIdempotencyStore.isProcessed st.store cmd.command_id = false)
    (herr : impl.validate cmd = .error errMsg
      ∨ (impl.validate cmd = .ok () ∧ impl.execute cmd = .error errMsg)) :
    CommandHandler.handle registry impl st cmd
      = CommandHandler.handleRejection registry st cmd errMsg
    ∧ rejectionOutcomeOk registry st cmd errMsg
        (CommandHandler.handle registry impl st cmd) = true := by
  have heq : CommandHandler.handle registry impl st cmd
      = CommandHandler.handleRejection registry st cmd errMsg := by
    rcases herr with hv | ⟨hv, he⟩
    · simp [CommandHandler.handle, hdup, hv]
    · simp [CommandHandler.handle, hdup, hv, he]
  refine ⟨heq, ?_⟩
  rw [heq]
  exact handleRejection_outcome registry st cmd errMsg

/-- Witness for C3: a concrete failing `validate` against the spec-modelled
registry. -/
theorem handle_converts_errors_witness :
    CommandIdempotencyStore.isProcessed { processedCommands := [] } "cmd-bad" = false
    ∧ ({ validate := fun _ => .error "validation: Missing command_id",
         execute := fun _ => .ok "evt-x" } : HandlerImpl).validate
        { command_id := "cmd-bad", command_type := "TestCommand", correlation_id := none }
        = .error "validation: Missing command_id"
    ∧ (CommandHandler.handle specRegistry
        { validate := fun _ => .error "validation: Missing command_id",
          execute := fun _ => .ok "evt-x" }
        { store := { processedCommands := [] },
          env := { genId := fun n => "uuid-" ++ toString n, counter := 0, now := 9 },
          emitted := [] }
        { command_id := "cmd-bad", command_type := "TestCommand", correlation_id := none }
      = CommandHandler.handleRejection specRegistry
        { store := { processedCommands := [] },
          env := { genId := fun n => "uuid-" ++ toString n, counter := 0, now := 9 },
          emitted := [] }
        { command_id := "cmd-bad", command_type := "TestCommand", correlation_id := none }
        "validation: Missing command_id"
      ∧ rejectionOutcomeOk specRegistry
        { store := { processedCommands := [] },
          env := { genId := fun n => "uuid-" ++ toString n, counter := 0, now := 9 },
          emitted := [] }
        { command_id := "cmd-bad", command_type := "TestCommand", correlation_id := none }
        "validation: Missing command_id"
        (CommandHandler.handle specRegistry
          { validate := fun _ => .error "validation: Missing command_id",
            execute := fun _ => .ok "evt-x" }
          { store := { processedCommands := [] },
            env := { genId := fun n => "uuid-" ++ toString n, counter := 0, now := 9 },
            emitted := [] }
          { command_id := "cmd-bad", command_type := "TestCommand", correlation_id := none })
        = true) :=
  ⟨by decide, rfl,
    handle_converts_errors specRegistry
      { validate := fun _ => .error "validation: Missing command_id",
        execute := fun _ => .ok "evt-x" }
      { store := { processedCommands := [] },
        env := { genId := fun n => "uuid-" ++ toString n, counter := 0, now := 9 },
        emitted := [] }
      { command_id := "cmd-bad", command_type := "TestCommand", correlation_id := none }
      "validation: Missing command_id" (by decide) (Or.inl rfl)⟩

/-! C6 theorem. -/

theorem matchesHere_append_self (p r : List Char) : matchesHere (p ++ r) p = true := by
  induction p with
  | nil => cases r <;> rfl
  | cons c cs ih => simp [matchesHere, ih]

theorem jsIncludesL_append_self (p r : List Char) : jsIncludesL (p ++ r) p = true := by
  cases p with
  | nil => cases r <;> rfl
  | cons c cs =>
    have hm := matchesHere_append_self (c :: cs) r
    rw [List.cons_append] at hm
    simp [jsIncludesL, hm]

theorem jsIncludes_append_left (a b : String) : jsIncludes (a ++ b) a = true := by
  simp [jsIncludes, String.data_append, jsIncludesL_append_self]

theorem matchesHere_mono (x y q : List Char) (h : matchesHere x q = true) :
    matchesHere (x ++ y) q = true := by
  induction q generalizing x with
  | nil => simp [matchesHere]
  | cons p ps ih =>
    cases x with
    | nil => simp [matchesHere] at h
    | cons c cs =>
      simp only [matchesHere, Bool.and_eq_true] at h
      simp only [List.cons_append, matchesHere, Bool.and_eq_true]
      exact ⟨h.1, ih cs h.2⟩

theorem jsIncludesL_of_starts (a rest q : List Char) (h : matchesHere a q = true) :
    jsIncludesL (a ++ rest) q = true := by
  cases a with
  | nil =>
    cases q with
    | nil => cases rest <;> rfl
    | cons p ps => simp [matchesHere] at h
  | cons c cs =>
    have hm := matchesHere_mono (c :: cs) rest q h
    rw [List.cons_append] at hm
    simp [jsIncludesL, hm]

theorem schemaViolation_msg_has (t errs : String) :
    jsIncludes (valErrMessage (.schemaViolation t errs)) "Schema violation" = true := by
  simp only [jsIncludes, valErrMessage, String.data_append, List.append_assoc]
  exact jsIncludesL_of_starts _ _ _ (by decide)

theorem noSchema_msg_has (t s : String) :
    jsIncludes (valErrMessage (.noSchemaRegistered t s)) "No schema registered" = true := by
  simp only [jsIncludes, valErrMessage, String.data_append, List.append_assoc]
  exact jsIncludesL_of_starts _ _ _ (by decide)

/-- Message contract the claim states for each gate error. -/
def valErrMsgOk (e : ValErr) : Bool :=
  match e with
  | .schemaViolation _ _ => jsIncludes (valErrMessage e) "Schema violation"
  | .noSchemaRegistered _ _ => jsIncludes (valErrMessage e) "No schema registered"
  | _ => true

/-- Full gate contract of one `emitEvent` call: a validation failure throws
the gate's own error (whose message carries the claimed marker text) and the
publisher receives nothing; a validation pass with no publisher configured
throws the configuration error and publishes nothing; otherwise the one
validated event is handed to the publisher. -/
def gateCheck (registry : SchemaRegistry) (publisherConfigured : Bool)
    (ev : Option GateEvent) : Bool :=
  match emitEvent registry publisherConfigured ev with
  | (.error (.validation e), trace) =>
    trace.isEmpty && valErrMsgOk e
      && (match validateEvent registry ev with
          | .error e1 => decide (e = e1)
          | .ok _ => false)
  | (.error .noPublisher, trace) =>
    !publisherConfigured && trace.isEmpty
      && (match validateEvent registry ev with
          | .ok _ => true
          | .error _ => false)
  | (.ok _, trace) =>
    publisherConfigured && decide (trace = [ev])
      && (match validateEvent registry ev with
          | .ok _ => true
          | .error _ => false)

/-- C6: `emitEvent` validates before any publish — a schema-violating payload
throws an error containing "Schema violation" and an unregistered
`event_type` one containing "No schema registered", in both cases without
invoking the publisher; a valid event with no publisher configured fails
with the configuration error rather than a business rejection. -/
theorem emitEvent_gate (registry : SchemaRegistry) (publisherConfigured : Bool)
    (ev : Option GateEvent) :
    gateCheck registry publisherConfigured ev = true := by
  unfold gateCheck emitEvent
  cases hv : validateEvent registry ev with
  | error e =>
    cases e with
    | notObject => simp [valErrMsgOk]
    | missingEventType => simp [valErrMsgOk]
    | noSchemaRegistered t s => simp [valErrMsgOk, noSchema_msg_has]
    | schemaViolation t errs => simp [valErrMsgOk, schemaViolation_msg_has]
  | ok u =>
    cases u
    cases publisherConfigured <;> simp

/-! C7 theorem: the event-type to schema-name transform round-trips. -/

theorem char_toNat_ofNat (n : Nat) (h : n < 55296) : (Char.ofNat n).toNat = n := by
  have hv : n.isValidChar := Or.inl h
  simp [Char.ofNat, hv, Char.ofNatAux, Char.toNat, UInt32.toNat, BitVec.toNat_ofNatLt]

theorem char_ofNat_toNat (c : Char) (h : c.toNat < 55296) : Char.ofNat c.toNat = c := by
  apply Char.eq_of_val_eq
  apply UInt32.ext
  exact char_toNat_ofNat _ h

theorem isLowerAZ_iff (c : Char) : isLowerAZ c = true ↔ 97 ≤ c.toNat ∧ c.toNat ≤ 122 := by
  simp [isLowerAZ]

theorem isUpperAZ_iff (c : Char) : isUpperAZ c = true ↔ 65 ≤ c.toNat ∧ c.toNat ≤ 90 := by
  simp [isUpperAZ]

theorem isDigit09_iff (c : Char) : isDigit09 c = true ↔ 48 ≤ c.toNat ∧ c.toNat ≤ 57 := by
  simp [isDigit09]

theorem jsToUpperChar_toNat (c : Char) (h : isLowerAZ c = true) :
    (jsToUpperChar c).toNat = c.toNat - 32 := by
  obtain ⟨h1, h2⟩ := (isLowerAZ_iff c).mp h
  simp only [jsToUpperChar, h, if_true]
  exact char_toNat_ofNat _ (by omega)

theorem isUpperAZ_jsToUpperChar (c : Char) (h : isLowerAZ c = true) :
    isUpperAZ (jsToUpperChar c) = true := by
  obtain ⟨h1, h2⟩ := (isLowerAZ_iff c).mp h
  rw [isUpperAZ_iff, jsToUpperChar_toNat c h]
  omega

theorem jsToLower_jsToUpper (c : Char) (h : isLowerAZ c = true) :
    jsToLowerChar (jsToUpperChar c) = c := by
  obtain ⟨h1, h2⟩ := (isLowerAZ_iff c).mp h
  have ht := jsToUpperChar_toNat c h
  simp only [jsToLowerChar, isUpperAZ_jsToUpperChar c h, if_true, ht]
  have hn : c.toNat - 32 + 32 = c.toNat := by omega
  rw [hn]
  exact char_ofNat_toNat c (by omega)

theorem jsToLowerChar_id (c : Char) (h : isUpperAZ c = false) : jsToLowerChar c = c := by
  simp [jsToLowerChar, h]

theorem notUpper_of_lowerOrDigit (c : Char)
    (h : isLowerAZ c = true ∨ isDigit09 c = true) : isUpperAZ c = false := by
  rcases h with h | h
  · obtain ⟨h1, h2⟩ := (isLowerAZ_iff c).mp h
    simp [isUpperAZ]; omega
  · obtain ⟨h1, h2⟩ := (isDigit09_iff c).mp h
    simp [isUpperAZ]; omega

theorem expandUpperL_cons (c : Char) (cs : List Char) :
    expandUpperL (c :: cs) = (if isUpperAZ c then ['_', c] else [c]) ++ expandUpperL cs := by
  simp [expandUpperL]

theorem expandUpperL_noUpper (cs : List Char) (h : ∀ c ∈ cs, isUpperAZ c = false) :
    expandUpperL cs = cs := by
  induction cs with
  | nil => rfl
  | cons c t ih =>
    rw [expandUpperL_cons, h c (by simp), ih (fun x hx => h x (by simp [hx]))]
    rfl

theorem map_jsToLower_id (cs : List Char) (h : ∀ c ∈ cs, isUpperAZ c = false) :
    cs.map jsToLowerChar = cs := by
  induction cs with
  | nil => rfl
  | cons c t ih =>
    rw [List.map_cons, jsToLowerChar_id c (h c (by simp)),
      ih (fun x hx => h x (by simp [hx]))]

theorem goodWordL_chars (w : List Char) (h : goodWordL w = true) (c : Char) (hc : c ∈ w) :
    isLowerAZ c = true ∨ isDigit09 c = true := by
  cases w with
  | nil => cases hc
  | cons a t =>
    simp only [goodWordL, Bool.and_eq_true] at h
    rcases List.mem_cons.mp hc with rfl | hct
    · exact Or.inl h.1
    · have := List.all_eq_true.mp h.2 c hct
      simpa [Bool.or_eq_true] using this

theorem goodWordL_noUpper (w : List Char) (h : goodWordL w = true) :
    ∀ c ∈ w, isUpperAZ c = false :=
  fun c hc => notUpper_of_lowerOrDigit c (goodWordL_chars w h c hc)

theorem snakeAux_word (w : List Char) (h : goodWordL w = true) :
    snakeAux (capitalizeL w) = '_' :: w := by
  cases w with
  | nil => cases h
  | cons c cs =>
    simp only [goodWordL, Bool.and_eq_true] at h
    obtain ⟨hc, hcs⟩ := h
    have hcs2 : ∀ d ∈ cs, isUpperAZ d = false := by
      intro d hd
      apply notUpper_of_lowerOrDigit
      have := List.all_eq_true.mp hcs d hd
      simpa [Bool.or_eq_true] using this
    have hu := isUpperAZ_jsToUpperChar c hc
    simp only [capitalizeL, snakeAux, expandUpperL_cons, hu, if_true]
    rw [expandUpperL_noUpper cs hcs2]
    simp only [List.cons_append, List.nil_append, List.map_cons]
    rw [map_jsToLower_id cs hcs2, jsToLower_jsToUpper c hc,
      jsToLowerChar_id '_' (by decide)]

theorem snakeAux_append (a b : List Char) :
    snakeAux (a ++ b) = snakeAux a ++ snakeAux b := by
  simp [snakeAux, expandUpperL, List.map_append, List.flatten_append]

theorem snakeAux_flatten_caps (ws : List (List Char)) (h : ws.all goodWordL = true) :
    snakeAux ((ws.map capitalizeL).flatten) = (ws.map (fun w => '_' :: w)).flatten := by
  induction ws with
  | nil => rfl
  | cons w rest ih =>
    simp only [List.all_cons, Bool.and_eq_true] at h
    simp only [List.map_cons, List.flatten_cons]
    rw [snakeAux_append, snakeAux_word w h.1, ih h.2]

theorem intercalate_cons2 (a b : List Char) (t : List (List Char)) :
    List.intercalate ['_'] (a :: b :: t) = a ++ '_' :: List.intercalate ['_'] (b :: t) := by
  simp [List.intercalate, List.intersperse_cons_cons]

theorem flatten_underscore_words (ws : List (List Char)) (h : ws ≠ []) :
    (ws.map (fun w => '_' :: w)).flatten = '_' :: List.intercalate ['_'] ws := by
  induction ws with
  | nil => exact absurd rfl h
  | cons w rest ih =>
    cases rest with
    | nil => simp [List.intercalate]
    | cons w2 r2 =>
      have ih2 := ih (by simp)
      simp only [List.map_cons, List.flatten_cons] at ih2 ⊢
      rw [ih2, intercalate_cons2]
      simp

theorem string_mk_data (s : String) : String.mk s.data = s := rfl

/-- Round trip of the case transforms on a well-formed snake_case name:
`toSnakeCase` inverts `toPascalCase`. -/
theorem snake_pascal_roundtrip (base : String) (h : isSnakeName base.data = true) :
    toSnakeCase (toPascalCase base) = base := by
  have hall : (base.data.splitOn '_').all goodWordL = true := h
  have hne : base.data.splitOn '_' ≠ [] := by
    unfold List.splitOn
    exact List.splitOnP_ne_nil _ _
  have hbase : List.intercalate ['_'] (base.data.splitOn '_') = base.data :=
    List.intercalate_splitOn base.data '_'
  have hstep : toSnakeCase (toPascalCase base)
      = String.mk (stripLeadUnderscore
          (snakeAux (((base.data.splitOn '_').map capitalizeL).flatten))) := rfl
  rw [hstep, snakeAux_flatten_caps _ hall, flatten_underscore_words _ hne]
  rw [show stripLeadUnderscore ('_' :: List.intercalate ['_'] (base.data.splitOn '_'))
      = List.intercalate ['_'] (base.data.splitOn '_') from rfl]
  rw [hbase]

theorem jsReplaceFirstL_cons (c : Char) (t pat rep : List Char) :
    jsReplaceFirstL (c :: t) pat rep =
      if matchesHere (c :: t) pat then rep ++ (c :: t).drop pat.length
      else c :: jsReplaceFirstL t pat rep := rfl

theorem jsReplaceFirstL_strip (base : List Char) (c0 : Char) (pt : List Char)
    (hb : c0 ∉ base) :
    jsReplaceFirstL (base ++ (c0 :: pt)) (c0 :: pt) [] = base := by
  induction base with
  | nil =>
    simp only [List.nil_append, jsReplaceFirstL]
    have hm : matchesHere (c0 :: pt) (c0 :: pt) = true := by
      have := matchesHere_append_self (c0 :: pt) []
      simpa using this
    simp [hm, List.drop_length]
  | cons c t ih =>
    have hc : c ≠ c0 := fun hcc => hb (by simp [hcc])
    have ht : c0 ∉ t := fun htt => hb (by simp [htt])
    have hm : ¬(matchesHere (c :: (t ++ (c0 :: pt))) (c0 :: pt) = true) := by
      simp [matchesHere, hc]
    rw [List.cons_append, jsReplaceFirstL_cons, if_neg hm, ih ht]

theorem intercalate_chars (ws : List (List Char)) (c : Char)
    (hc : c ∈ List.intercalate ['_'] ws) : c = '_' ∨ ∃ w ∈ ws, c ∈ w := by
  induction ws with
  | nil => simp [List.intercalate] at hc
  | cons w rest ih =>
    cases rest with
    | nil =>
      simp only [List.intercalate, List.intersperse_single, List.flatten_cons,
        List.flatten_nil, List.append_nil] at hc
      exact Or.inr ⟨w, by simp, hc⟩
    | cons w2 r2 =>
      rw [intercalate_cons2] at hc
      rcases List.mem_append.mp hc with h1 | h2
      · exact Or.inr ⟨w, by simp, h1⟩
      · rcases List.mem_cons.mp h2 with rfl | h3
        · exact Or.inl rfl
        · rcases ih h3 with h4 | ⟨w3, hw3, hcw⟩
          · exact Or.inl h4
          · exact Or.inr ⟨w3, by simp [hw3], hcw⟩

theorem goodName_no_dot (base : List Char) (h : isSnakeName base = true) :
    '.' ∉ base := by
  intro hc
  have hall : (base.splitOn '_').all goodWordL = true := h
  have hbase : List.intercalate ['_'] (base.splitOn '_') = base :=
    List.intercalate_splitOn base '_'
  rw [← hbase] at hc
  rcases intercalate_chars _ _ hc with h1 | ⟨w, hw, hcw⟩
  · exact absurd h1 (by decide)
  · rcases goodWordL_chars w (List.all_eq_true.mp hall w hw) _ hcw with h2 | h2
    · exact absurd h2 (by decide)
    · exact absurd h2 (by decide)

/-- C7: for every registered schema file name of the form
`snake_case.v1.json` (the envelope schema excepted), applying the PascalCase
transform `getSupportedEventTypes` uses and then the snake_case transform
`validateEvent` uses recovers the original schema file name, so reversing
the set of registered schemas recovers the full list of supported event
types. -/
theorem schema_name_roundtrip (base : String) (h : isSnakeName base.data = true) :
    eventTypeOfSchemaFile (base ++ ".v1.json") = toPascalCase base
    ∧ schemaNameOfType (eventTypeOfSchemaFile (base ++ ".v1.json")) = base ++ ".v1.json" := by
  have hstrip : jsReplaceFirst (base ++ ".v1.json") ".v1.json" "" = base := by
    unfold jsReplaceFirst
    rw [String.data_append]
    have hp : (".v1.json").data = '.' :: ("v1.json").data := rfl
    rw [show ("" : String).data = [] from rfl, hp,
      jsReplaceFirstL_strip base.data '.' ("v1.json").data (goodName_no_dot base.data h)]
  refine ⟨?_, ?_⟩
  · unfold eventTypeOfSchemaFile
    rw [hstrip]
  · unfold eventTypeOfSchemaFile schemaNameOfType
    rw [hstrip, snake_pascal_roundtrip base h]

/-- Witness for C7 at the registered schema name `payment_settled.v1.json`. -/
theorem schema_name_roundtrip_witness :
    isSnakeName ("payment_settled" : String).data = true
    ∧ (eventTypeOfSchemaFile ("payment_settled" ++ ".v1.json")
        = toPascalCase "payment_settled"
      ∧ schemaNameOfType (eventTypeOfSchemaFile ("payment_settled" ++ ".v1.json"))
        = "payment_settled" ++ ".v1.json") :=
  ⟨by decide, schema_name_roundtrip "payment_settled" (by decide)⟩

/-! C4: concurrency. `handle` is `async`; in the JavaScript event loop its
synchronous prefix (duplicate check and `validate`) runs atomically, the
task yields at `await this.execute(command)`, and the remainder
(`markProcessed` and result construction) runs when `execute` resolves.
The decomposition below mirrors `handle` around that one yield point, which
is the one the spec's concurrency hazard concerns. -/

/-- Where a `handle` call stands when it first reaches (or avoids) the
`execute` await. -/
inductive PhaseOut
  | finished (r : Except ValErr (CommandResult × HandleState))
  | pendingExecute (st : HandleState)

/-- The synchronous prefix of `handle`, up to the invocation of `execute`:
duplicate check (with its duplicate-rejection emission) and `validate`
(with its rejection emission on error). `pendingExecute` means `execute`
has just been invoked and the task is suspended awaiting it. -/
def handleUpToExecute (registry : SchemaRegistry) (impl : HandlerImpl)
    (st : HandleState) (cmd : Command) : PhaseOut :=
  if CommandIdempotencyStore.isProcessed st.store cmd.command_id then
    .finished
      (match CommandRejectedEmitter.emitDuplicateCommand registry st.env
          cmd.command_id cmd.command_type cmd.correlation_id with
       | .error e => .error e
       | .ok (rejection_event_id, env1, evs) =>
         .ok ({ success := false
                event_id := none
                rejection_event_id := some rejection_event_id
                reason := some "Duplicate command" },
              { st with env := env1, emitted := st.emitted ++ evs }))
  else
    match impl.validate cmd with
    | .error e => .finished (CommandHandler.handleRejection registry st cmd e)
    | .ok () => .pendingExecute st

/-- The continuation of `handle` after `execute` resolves, reading the
shared state as it is at resumption time. -/
def handleAfterExecute (registry : SchemaRegistry) (st : HandleState) (cmd : Command)
    (executed : Except String String) : Except ValErr (CommandResult × HandleState) :=
  match executed with
  | .error e => CommandHandler.handleRejection registry st cmd e
  | .ok event_id =>
    match CommandIdempotencyStore.markProcessed st.store cmd.command_id
        cmd.command_type (some event_id) st.env.now with
    | .error e => CommandHandler.handleRejection registry st cmd e
    | .ok store1 =>
      .ok ({ success := true
             event_id := some event_id
             rejection_event_id := none
             reason := none },
           { st with store := store1 })

/-- A solo (uninterleaved) run decomposed through the two phases agrees with
`handle`: the decomposition splits `handle` without changing it. -/
theorem handle_phase_decomposition (registry : SchemaRegistry) (impl : HandlerImpl)
    (st : HandleState) (cmd : Command) :
    CommandHandler.handle registry impl st cmd =
      match handleUpToExecute registry impl st cmd with
      | .finished r => r
      | .pendingExecute st1 => handleAfterExecute registry st1 cmd (impl.execute cmd) := by
  unfold CommandHandler.handle handleUpToExecute handleAfterExecute
  cases hp : CommandIdempotencyStore.isProcessed st.store cmd.command_id with
  | true => simp
  | false =>
    simp only [Bool.false_eq_true, if_false]
    cases hv : impl.validate cmd with
    | error e => rfl
    | ok u => cases u; rfl

/-- Shared state left behind by a completed call (unchanged if it threw). -/
def stateAfter (r : Except ValErr (CommandResult × HandleState))
    (fallback : HandleState) : HandleState :=
  match r with
  | .ok (_, st1) => st1
  | .error _ => fallback

/-- Two concurrent `handle` calls for the same command, under the schedule
the spec's hazard describes: task A runs to its `execute` await, task B then
runs to its `execute` await, then A completes, then B completes. Returns
A's result, B's result, and how many times `execute` was invoked in total. -/
def raceTwo (registry : SchemaRegistry) (impl : HandlerImpl) (st0 : HandleState)
    (cmd : Command) :
    Except ValErr (CommandResult × HandleState)
      × Except ValErr (CommandResult × HandleState) × Nat :=
  match handleUpToExecute registry impl st0 cmd with
  | .finished ra =>
    match handleUpToExecute registry impl (stateAfter ra st0) cmd with
    | .finished rb => (ra, rb, 0)
    | .pendingExecute stB => (ra, handleAfterExecute registry stB cmd (impl.execute cmd), 1)
  | .pendingExecute stA =>
    match handleUpToExecute registry impl stA cmd with
    | .finished rb =>
      (handleAfterExecute registry (stateAfter rb stA) cmd (impl.execute cmd), rb, 1)
    | .pendingExecute stB =>
      let ra := handleAfterExecute registry stB cmd (impl.execute cmd)
      let rb := handleAfterExecute registry (stateAfter ra stB) cmd (impl.execute cmd)
      (ra, rb, 2)

/-- C4 fails on the code: with an empty store and a successful
implementation, two concurrent `handle` calls for the identical
`command_id` both pass the duplicate check, so `execute` runs twice; the
loser is then rejected by `markProcessed`'s safety net as a
`BUSINESS_RULE_VIOLATION` whose reason is the store's internal
"already processed" message — not resolved as a duplicate. -/
theorem race_both_execute :
    (raceTwo specRegistry
      { validate := fun _ => .ok (), execute := fun _ => .ok "evt-1" }
      { store := { processedCommands := [] },
        env := { genId := fun n => "uuid-" ++ toString n, counter := 0, now := 0 },
        emitted := [] }
      { command_id := "cmd-1", command_type := "Test", correlation_id := none }).2.2 = 2
    ∧ resultSatisfies
        (raceTwo specRegistry
          { validate := fun _ => .ok (), execute := fun _ => .ok "evt-1" }
          { store := { processedCommands := [] },
            env := { genId := fun n => "uuid-" ++ toString n, counter := 0, now := 0 },
            emitted := [] }
          { command_id := "cmd-1", command_type := "Test", correlation_id := none }).1
        (fun r => decide (r.success = true)) = true
    ∧ resultSatisfies
        (raceTwo specRegistry
          { validate := fun _ => .ok (), execute := fun _ => .ok "evt-1" }
          { store := { processedCommands := [] },
            env := { genId := fun n => "uuid-" ++ toString n, counter := 0, now := 0 },
            emitted := [] }
          { command_id := "cmd-1", command_type := "Test", correlation_id := none }).2.1
        (fun r => decide (r.success = false)
          && decide (r.reason = some "Command cmd-1 already processed")) = true
    ∧ (match (raceTwo specRegistry
          { validate := fun _ => .ok (), execute := fun _ => .ok "evt-1" }
          { store := { processedCommands := [] },
            env := { genId := fun n => "uuid-" ++ toString n, counter := 0, now := 0 },
            emitted := [] }
          { command_id := "cmd-1", command_type := "Test", correlation_id := none }).2.1 with
        | .ok (_, st1) =>
          decide (st1.emitted.map (fun e => e.payload.reason_code)
            = [RejectionReason.BUSINESS_RULE_VIOLATION])
        | .error _ => false) = true := by
  refine ⟨?_, ?_, ?_, ?_⟩ <;> rfl

end TPR
